import Mathlib

set_option maxRecDepth 100000
set_option maxHeartbeats 1000000

/-!
Verification of the Realtime voice-conversation repository.

Shallow embedding of the core components, translated from the Python source:
  * `src/src/config/run.py` — configuration dataclasses and enums,
  * `src/src/vad/run.py`    — `WebRTCVADProcessor` (the voice-activity state machine)
    and `ParallelStreamingSpeechConversation._process_user_input`,
  * `src/src/voice/run.py`  — `StreamingAudioProcessor` playback worker,
  * `src/src/text/run.py`   — `ParallelOpenAIHandler` (dual-stream responder,
    sentence segmentation, resampling).

Modelling conventions:
  * Python floats (wall-clock times, durations) are modelled as rationals `ℚ`.
  * Byte buffers are `List ℕ`; the WebRTC classifier `webrtcvad.Vad.is_speech`
    is an external C library and is modelled as a boolean input to each frame.
  * `time.time()` is modelled by threading a `now : ℚ` value into each call.
  * Python `deque(maxlen = n)` append is modelled by `dequeAppend`.
  * Python truthiness of a float (`if self.voice_start_time:`) is `t ≠ 0`
    on the stored rational, with `none` for Python `None`.
-/

/-- `VoiceState` enum from `src/src/config/run.py`. -/
inductive VoiceState where
  | SILENCE
  | VOICE_START
  | VOICE_ACTIVE
  | VOICE_END
deriving DecidableEq, Repr

/-- `AudioConfig` dataclass from `src/src/config/run.py` (fields relevant to the
frame-processing logic; `channels`/`format` only configure the device). -/
structure AudioConfig where
  sample_rate : ℕ
  chunk_size : ℕ
deriving DecidableEq, Repr

/-- Defaults of `AudioConfig`: 16 kHz, 320-sample (20 ms) frames. -/
def defaultAudioConfig : AudioConfig := ⟨16000, 320⟩

/-- `VADConfig` dataclass from `src/src/config/run.py`. Durations are seconds. -/
structure VADConfig where
  aggressiveness : ℕ
  min_voice_duration : ℚ
  max_silence_duration : ℚ
  voice_start_threshold : ℕ
  voice_end_threshold : ℕ
deriving DecidableEq, Repr

/-- Defaults of `VADConfig` (`aggressiveness=2`, `min_voice_duration=0.3`,
`max_silence_duration=1.5`, `voice_start_threshold=3`, `voice_end_threshold=10`). -/
def defaultVADConfig : VADConfig := ⟨2, 3/10, 3/2, 3, 10⟩

/-- Append to a Python `collections.deque(maxlen := maxlen)`: the oldest
element is evicted once the capacity is exceeded. -/
def dequeAppend (maxlen : ℕ) (q : List α) (x : α) : List α :=
  let q2 := q ++ [x]
  q2.drop (q2.length - maxlen)

/-- Python `l[-k:]` for `k > 0`: the last `min k (l.length)` elements. -/
def pyTakeLast (k : ℕ) (l : List α) : List α :=
  l.drop (l.length - k)

/-- Mutable state of `WebRTCVADProcessor` (`src/src/vad/run.py`, `__init__`):
`voice_state`, the two run-length counters, the session buffer
(`voice_buffer`, deque maxlen 1000), the pre-roll buffer (`pre_voice_buffer`,
deque maxlen 10) and `voice_start_time` (Python `None` ↦ `none`). -/
structure VADState where
  voice_state : VoiceState
  voice_frames : ℕ
  silence_frames : ℕ
  voice_buffer : List (List ℕ)
  pre_voice_buffer : List (List ℕ)
  voice_start_time : Option ℚ
deriving DecidableEq, Repr

/-- The state directly after `WebRTCVADProcessor.__init__`. -/
def initialVADState : VADState :=
  ⟨.SILENCE, 0, 0, [], [], none⟩

/-- Callback invocations of the detector (`on_voice_start`, `on_voice_data`,
`on_voice_end`), recorded as events in invocation order. -/
inductive VADEvent where
  | onVoiceStart
  | onVoiceData (frame : List ℕ)
  | onVoiceEnd
deriving DecidableEq, Repr

/-- Result of one `process_audio_frame` call: updated state, emitted events in
order, and the Python return value (`self.voice_state` at return time). -/
structure VADResult where
  state : VADState
  events : List VADEvent
  ret : VoiceState
deriving DecidableEq, Repr

/-- `WebRTCVADProcessor._start_voice_session`: sets `VOICE_START`, records the
start timestamp, appends the pre-roll buffer into the session buffer, fires
`on_voice_start`, then fires `on_voice_data` for
`list(self.voice_buffer)[-len(self.pre_voice_buffer)-3:]`. -/
def startVoiceSession (st : VADState) (now : ℚ) : VADState × List VADEvent :=
  let vb := st.pre_voice_buffer.foldl (fun b fr => dequeAppend 1000 b fr) st.voice_buffer
  let st2 := { st with voice_state := .VOICE_START, voice_start_time := some now,
                       voice_buffer := vb }
  (st2, .onVoiceStart :: (pyTakeLast (st.pre_voice_buffer.length + 3) vb).map .onVoiceData)

/-- `WebRTCVADProcessor._end_voice_session`: behind `if self.voice_start_time:`
(Python float truthiness: skipped when `None` or exactly `0.0`) the measured
duration is compared with `min_voice_duration` and `on_voice_end` fires only
when long enough; in every case the session buffer is cleared, both counters
reset, the timestamp dropped and the state returns to `SILENCE`.
The pre-roll buffer is not cleared here (matching the source). -/
def endVoiceSession (cv : VADConfig) (st : VADState) (now : ℚ) : VADState × List VADEvent :=
  let evs : List VADEvent :=
    match st.voice_start_time with
    | some t =>
        if t ≠ 0 then
          if cv.min_voice_duration ≤ now - t then [.onVoiceEnd] else []
        else []
    | none => []
  (⟨.SILENCE, 0, 0, [], st.pre_voice_buffer, none⟩, evs)

/-- `WebRTCVADProcessor.process_audio_frame` (`src/src/vad/run.py` lines 49-97).
The classifier outcome `webrtcvad.Vad.is_speech` is the boolean input
`is_speech`; `time.time()` is the input `now`.  The wrong-size guard returns
the current state untouched.  Note: the source consults no output-active flag
anywhere in this function — classification depends only on `is_speech`. -/
def process_audio_frame (ca : AudioConfig) (cv : VADConfig) (st : VADState)
    (frame : List ℕ) (is_speech : Bool) (now : ℚ) : VADResult :=
  if frame.length ≠ ca.chunk_size * 2 then ⟨st, [], st.voice_state⟩
  else if is_speech then
    let st1 := { st with voice_frames := st.voice_frames + 1, silence_frames := 0,
                         voice_buffer := dequeAppend 1000 st.voice_buffer frame }
    if st1.voice_state = .SILENCE ∧ cv.voice_start_threshold ≤ st1.voice_frames then
      let r := startVoiceSession st1 now
      ⟨r.1, r.2, r.1.voice_state⟩
    else if st1.voice_state = .VOICE_START ∨ st1.voice_state = .VOICE_ACTIVE then
      ⟨{ st1 with voice_state := .VOICE_ACTIVE }, [.onVoiceData frame], .VOICE_ACTIVE⟩
    else ⟨st1, [], st1.voice_state⟩
  else
    let st1 := { st with silence_frames := st.silence_frames + 1, voice_frames := 0 }
    if st1.voice_state = .SILENCE then
      ⟨{ st1 with pre_voice_buffer := dequeAppend 10 st1.pre_voice_buffer frame }, [], .SILENCE⟩
    else if (st1.voice_state = .VOICE_START ∨ st1.voice_state = .VOICE_ACTIVE) ∧
        cv.voice_end_threshold ≤ st1.silence_frames then
      let r := endVoiceSession cv st1 now
      ⟨r.1, r.2, r.1.voice_state⟩
    else ⟨st1, [], st1.voice_state⟩

/-- One microphone frame delivered to the detector: payload bytes, the
classifier's verdict for it, and the wall-clock time of the call. -/
structure FrameInput where
  frame : List ℕ
  is_speech : Bool
  now : ℚ

/-- Feed a sequence of frames through `process_audio_frame`, collecting all
emitted events in order (the capture loop in `src/src/voice/run.py` feeds each
input frame to the detector). -/
def runFrames (ca : AudioConfig) (cv : VADConfig) : VADState → List FrameInput → VADState × List VADEvent
  | st, [] => (st, [])
  | st, i :: rest =>
      let r := process_audio_frame ca cv st i.frame i.is_speech i.now
      let rec2 := runFrames ca cv r.state rest
      (rec2.1, r.events ++ rec2.2)

/-- A correctly sized frame under the default config: 320 samples × 2 bytes. -/
def testFrame : List ℕ := List.replicate 640 0

/-- Count `on_voice_start` invocations. -/
def countStart (evs : List VADEvent) : ℕ :=
  (evs.filter fun e => match e with | .onVoiceStart => true | _ => false).length

/-- Count `on_voice_data` invocations. -/
def countData (evs : List VADEvent) : ℕ :=
  (evs.filter fun e => match e with | .onVoiceData _ => true | _ => false).length

/-- Count `on_voice_end` invocations. -/
def countEnd (evs : List VADEvent) : ℕ :=
  (evs.filter fun e => match e with | .onVoiceEnd => true | _ => false).length

/-- The attributes the class `WebRTCVADProcessor` actually defines
(`src/src/vad/run.py` lines 10-145): the instance attributes assigned in
`__init__` plus its methods.  Python attribute dispatch on any name outside
this list raises `AttributeError`.  In particular `set_output_state`,
`output_active`, `_is_in_output_cooldown` and `_should_process_vad` — all
referenced by `src/src/voice/run.py` — are absent. -/
def WebRTCVADProcessor.attrNames : List String :=
  ["audio_config", "vad_config", "vad", "voice_state", "voice_frames", "silence_frames",
   "voice_buffer", "pre_voice_buffer", "frame_duration", "voice_start_time",
   "on_voice_start", "on_voice_data", "on_voice_end",
   "set_callbacks", "process_audio_frame", "_start_voice_session", "_end_voice_session", "reset"]

/-- Python attribute dispatch on a `WebRTCVADProcessor` instance: a name the
class does not define raises `AttributeError` (the success branch is dead code
for every name this development ever dispatches, since those names are absent
from the class). -/
def vadDispatch (name : String) : Except String Unit :=
  if name ∈ WebRTCVADProcessor.attrNames then Except.ok ()
  else Except.error ("AttributeError: " ++ name)

/-- State of the playback side of `StreamingAudioProcessor`
(`src/src/voice/run.py`): the `is_audio_playing` flag, the two timestamps and
the pending audio queue (`queue.Queue`, drained FIFO). -/
structure PlaybackState where
  is_audio_playing : Bool
  audio_start_time : Option ℚ
  last_audio_time : Option ℚ
  pending : List (List ℕ)
deriving DecidableEq, Repr

/-- Outcome of one iteration of the `audio_playback_worker` loop
(`src/src/voice/run.py` lines 74-112): either the loop continues with an
updated state, or an exception escaped the worker function and the playback
thread is dead. -/
inductive WorkerStep where
  | next (s : PlaybackState)
  | crashed (s : PlaybackState) (msg : String)
deriving DecidableEq, Repr

/-- One iteration of `audio_playback_worker`, with `now` the wall clock.

Non-empty queue (`audio_data = self.audio_queue.get(timeout=0.1)` succeeds):
on the first buffer after idle the worker sets `is_audio_playing := true`,
records `audio_start_time`, then calls `self.vad_processor.set_output_state(True)`.
That attribute does not exist, so `except Exception` catches the
`AttributeError`, and the handler — seeing `is_audio_playing` true — resets the
flag and calls `set_output_state(False)`, which raises again *inside* the
handler; this second exception is uncaught and kills the thread.

Empty queue (`except queue.Empty`): after the 0.5 s trailing-silence timeout
(guarded by Python truthiness of `last_audio_time`) the worker resets
`is_audio_playing` and calls `set_output_state(False)`; an exception raised
inside this `except` clause is likewise uncaught. -/
def workerIteration (s : PlaybackState) (now : ℚ) : WorkerStep :=
  match s.pending with
  | buf :: rest =>
      if buf ≠ [] then
        if s.is_audio_playing = false then
          let s1 := { s with is_audio_playing := true, audio_start_time := some now,
                             pending := rest }
          match vadDispatch "set_output_state" with
          | .ok _ => .next { s1 with last_audio_time := some now }
          | .error _ =>
              match vadDispatch "set_output_state" with
              | .ok _ => .next { s1 with is_audio_playing := false }
              | .error e2 => .crashed { s1 with is_audio_playing := false } e2
        else .next { s with last_audio_time := some now, pending := rest }
      else .next { s with pending := rest }
  | [] =>
      if s.is_audio_playing &&
          (match s.last_audio_time with
           | some t => decide (t ≠ 0) && decide ((1 : ℚ)/2 < now - t)
           | none => false) then
        match vadDispatch "set_output_state" with
        | .ok _ => .next { s with is_audio_playing := false }
        | .error e => .crashed { s with is_audio_playing := false } e
      else .next s

/-- `StreamingAudioProcessor.__init__` playback fields. -/
def initialPlaybackState : PlaybackState := ⟨false, none, none, []⟩

/-- C1 (code bug): the echo-suppression described by the spec does not exist
in the source.  `WebRTCVADProcessor` defines neither an output-active flag nor
a `set_output_state` method, and `process_audio_frame` (whose only inputs are
the frame, the classifier verdict and the clock — no output-activity input
exists in its signature) takes the speech path for every speech-classified
frame: from a state two speech frames below the start threshold, one more
speech-classified frame emits `on_voice_start` and advances the voice counter
(rather than advancing counters as silence), regardless of any system
playback. -/
theorem c1_no_echo_suppression :
    "output_active" ∉ WebRTCVADProcessor.attrNames ∧
    "set_output_state" ∉ WebRTCVADProcessor.attrNames ∧
    countStart (process_audio_frame defaultAudioConfig defaultVADConfig
      ⟨.SILENCE, 2, 0, [testFrame, testFrame], [], none⟩ testFrame true 1).events = 1 ∧
    (process_audio_frame defaultAudioConfig defaultVADConfig
      ⟨.SILENCE, 2, 0, [testFrame, testFrame], [], none⟩ testFrame true 1).state.voice_frames = 3 ∧
    (process_audio_frame defaultAudioConfig defaultVADConfig
      ⟨.SILENCE, 2, 0, [testFrame, testFrame], [], none⟩ testFrame true 1).state.voice_state =
      VoiceState.VOICE_START := by
  refine ⟨by decide, by decide, ?_, ?_, ?_⟩ <;> decide

/-- C2 (code bug): the playback worker cannot propagate `is_audio_playing`
transitions to the detector.  In the claim's scenario (enqueue one buffer,
then idle), the very first iteration flips `is_audio_playing` true, then calls
the nonexistent `set_output_state`; the `AttributeError` raised again inside
the `except` handler kills the playback thread, `is_audio_playing` is left
false, and the detector — which has no output-active attribute at all — never
observes any transition. -/
theorem c2_playback_propagation_crashes :
    workerIteration ⟨false, none, none, [[1, 2, 3]]⟩ 1 =
      .crashed ⟨false, some 1, none, []⟩ "AttributeError: set_output_state" ∧
    "set_output_state" ∉ WebRTCVADProcessor.attrNames ∧
    "output_active" ∉ WebRTCVADProcessor.attrNames := by
  refine ⟨?_, by decide, by decide⟩
  decide

/-- C7: a frame whose byte length is not `chunk_size * 2` is rejected with no
state change, no events, and the current state as return value. -/
theorem c7_frame_size_reject (ca : AudioConfig) (cv : VADConfig) (st : VADState)
    (frame : List ℕ) (is_speech : Bool) (now : ℚ)
    (hlen : frame.length ≠ ca.chunk_size * 2) :
    process_audio_frame ca cv st frame is_speech now = ⟨st, [], st.voice_state⟩ := by
  unfold process_audio_frame
  rw [if_pos hlen]

/-- Witness for C7: a 1-byte frame (≠ 640 required bytes) is rejected from the
initial state under the default configs. -/
theorem c7_frame_size_reject_witness :
    ([0] : List ℕ).length ≠ defaultAudioConfig.chunk_size * 2 ∧
    process_audio_frame defaultAudioConfig defaultVADConfig initialVADState [0] true 1 =
      ⟨initialVADState, [], VoiceState.SILENCE⟩ :=
  ⟨by decide,
   c7_frame_size_reject defaultAudioConfig defaultVADConfig initialVADState [0] true 1 (by decide)⟩

/-- A deque append below capacity is a plain append. -/
lemma dequeAppend_of_lt (maxlen : ℕ) (q : List α) (x : α) (h : q.length < maxlen) :
    dequeAppend maxlen q x = q ++ [x] := by
  unfold dequeAppend
  have hz : q.length + 1 - maxlen = 0 := by omega
  simp [hz]

/-- One-step unfolding of `runFrames` on a cons. -/
lemma runFrames_cons (ca : AudioConfig) (cv : VADConfig) (st : VADState)
    (i : FrameInput) (rest : List FrameInput) :
    runFrames ca cv st (i :: rest) =
      ((runFrames ca cv (process_audio_frame ca cv st i.frame i.is_speech i.now).state rest).1,
       (process_audio_frame ca cv st i.frame i.is_speech i.now).events ++
         (runFrames ca cv (process_audio_frame ca cv st i.frame i.is_speech i.now).state rest).2) :=
  rfl

/-- `runFrames` over a concatenation splits into sequential runs. -/
lemma runFrames_append (ca : AudioConfig) (cv : VADConfig) (st : VADState)
    (xs ys : List FrameInput) :
    runFrames ca cv st (xs ++ ys) =
      ((runFrames ca cv (runFrames ca cv st xs).1 ys).1,
       (runFrames ca cv st xs).2 ++ (runFrames ca cv (runFrames ca cv st xs).1 ys).2) := by
  induction xs generalizing st with
  | nil => simp [runFrames]
  | cons i rest ih =>
      simp only [List.cons_append, runFrames_cons, ih, List.append_assoc]

/-- A speech-classified frame in `SILENCE` below the start threshold: counters
advance, the frame is buffered, no event, no state transition. -/
lemma speech_step_silence_below (ca : AudioConfig) (cv : VADConfig) (st : VADState)
    (frame : List ℕ) (now : ℚ)
    (hst : st.voice_state = .SILENCE)
    (hlen : frame.length = ca.chunk_size * 2)
    (hvf : st.voice_frames + 1 < cv.voice_start_threshold)
    (hbuf : st.voice_buffer.length < 1000) :
    process_audio_frame ca cv st frame true now =
      ⟨⟨.SILENCE, st.voice_frames + 1, 0, st.voice_buffer ++ [frame],
        st.pre_voice_buffer, st.voice_start_time⟩, [], .SILENCE⟩ := by
  obtain ⟨vs, vf, sf, vb, pvb, vst⟩ := st
  simp only at hst hvf hbuf
  subst hst
  unfold process_audio_frame
  rw [if_neg (by simp [hlen])]
  simp [dequeAppend_of_lt _ _ _ hbuf, Nat.not_le.mpr hvf]

/-- A speech-classified frame in `SILENCE` reaching the start threshold (with
an empty pre-roll buffer): a session starts, `on_voice_start` fires, then
`on_voice_data` for the last three buffered frames. -/
lemma speech_step_start (ca : AudioConfig) (cv : VADConfig) (st : VADState)
    (frame : List ℕ) (now : ℚ)
    (hst : st.voice_state = .SILENCE)
    (hlen : frame.length = ca.chunk_size * 2)
    (hvf : cv.voice_start_threshold ≤ st.voice_frames + 1)
    (hbuf : st.voice_buffer.length < 1000)
    (hpre : st.pre_voice_buffer = []) :
    process_audio_frame ca cv st frame true now =
      ⟨⟨.VOICE_START, st.voice_frames + 1, 0, st.voice_buffer ++ [frame], [], some now⟩,
       .onVoiceStart :: (pyTakeLast 3 (st.voice_buffer ++ [frame])).map .onVoiceData,
       .VOICE_START⟩ := by
  obtain ⟨vs, vf, sf, vb, pvb, vst⟩ := st
  simp only at hst hvf hbuf hpre
  subst hst; subst hpre
  unfold process_audio_frame startVoiceSession
  rw [if_neg (by simp [hlen])]
  simp [dequeAppend_of_lt _ _ _ hbuf, hvf]

/-- A speech-classified frame in `VOICE_START`/`VOICE_ACTIVE`: transition to
`VOICE_ACTIVE`, counters advance, the frame is buffered and delivered. -/
lemma speech_step_active (ca : AudioConfig) (cv : VADConfig) (st : VADState)
    (frame : List ℕ) (now : ℚ)
    (hst : st.voice_state = .VOICE_START ∨ st.voice_state = .VOICE_ACTIVE)
    (hlen : frame.length = ca.chunk_size * 2)
    (hbuf : st.voice_buffer.length < 1000) :
    process_audio_frame ca cv st frame true now =
      ⟨⟨.VOICE_ACTIVE, st.voice_frames + 1, 0, st.voice_buffer ++ [frame],
        st.pre_voice_buffer, st.voice_start_time⟩, [.onVoiceData frame], .VOICE_ACTIVE⟩ := by
  obtain ⟨vs, vf, sf, vb, pvb, vst⟩ := st
  simp only at hst hbuf
  unfold process_audio_frame
  rw [if_neg (by simp [hlen])]
  rcases hst with h | h <;> subst h <;> simp [dequeAppend_of_lt _ _ _ hbuf]

/-- A silence-classified frame in `VOICE_ACTIVE` below the end threshold:
the silence counter advances, the voice counter resets, no event. -/
lemma silence_step_below (ca : AudioConfig) (cv : VADConfig) (st : VADState)
    (frame : List ℕ) (now : ℚ)
    (hst : st.voice_state = .VOICE_ACTIVE)
    (hlen : frame.length = ca.chunk_size * 2)
    (hthr : st.silence_frames + 1 < cv.voice_end_threshold) :
    process_audio_frame ca cv st frame false now =
      ⟨⟨.VOICE_ACTIVE, 0, st.silence_frames + 1, st.voice_buffer,
        st.pre_voice_buffer, st.voice_start_time⟩, [], .VOICE_ACTIVE⟩ := by
  obtain ⟨vs, vf, sf, vb, pvb, vst⟩ := st
  simp only at hst hthr
  subst hst
  unfold process_audio_frame
  rw [if_neg (by simp [hlen])]
  simp [Nat.not_le.mpr hthr]

/-- A silence-classified frame closing an active session (silence run reaching
the end threshold): the session ends through `_end_voice_session`. -/
lemma silence_step_end (ca : AudioConfig) (cv : VADConfig) (st : VADState)
    (frame : List ℕ) (now : ℚ)
    (hst : st.voice_state = .VOICE_START ∨ st.voice_state = .VOICE_ACTIVE)
    (hlen : frame.length = ca.chunk_size * 2)
    (hthr : cv.voice_end_threshold ≤ st.silence_frames + 1) :
    process_audio_frame ca cv st frame false now =
      ⟨⟨.SILENCE, 0, 0, [], st.pre_voice_buffer, none⟩,
       (match st.voice_start_time with
        | some t =>
            if t ≠ 0 then
              if cv.min_voice_duration ≤ now - t then [.onVoiceEnd] else []
            else []
        | none => []), .SILENCE⟩ := by
  obtain ⟨vs, vf, sf, vb, pvb, vst⟩ := st
  simp only at hst hthr
  unfold process_audio_frame endVoiceSession
  rw [if_neg (by simp [hlen])]
  rcases hst with h | h <;> subst h <;> simp [hthr]
/-- Running a block of well-sized speech-classified frames from an active
session state (`VOICE_START`/`VOICE_ACTIVE`, buffer under capacity): every
frame is delivered via `on_voice_data` and appended to the session buffer. -/
lemma speech_run (ca : AudioConfig) (cv : VADConfig) (inputs : List FrameInput)
    (st : VADState)
    (hsp : ∀ i ∈ inputs, i.is_speech = true ∧ i.frame.length = ca.chunk_size * 2)
    (hst : st.voice_state = .VOICE_START ∨ st.voice_state = .VOICE_ACTIVE)
    (hbuf : st.voice_buffer.length + inputs.length ≤ 1000) :
    runFrames ca cv st inputs =
      (⟨(if inputs.length = 0 then st.voice_state else .VOICE_ACTIVE),
        st.voice_frames + inputs.length,
        (if inputs.length = 0 then st.silence_frames else 0),
        st.voice_buffer ++ inputs.map (fun i => i.frame),
        st.pre_voice_buffer, st.voice_start_time⟩,
       inputs.map (fun i => VADEvent.onVoiceData i.frame)) := by
  induction inputs generalizing st with
  | nil => cases st; simp [runFrames]
  | cons i rest ih =>
      obtain ⟨hsp1, hlen1⟩ := hsp i (by simp)
      rw [runFrames_cons, hsp1,
        speech_step_active ca cv st i.frame i.now hst hlen1 (by simp at hbuf; omega)]
      rw [ih _ (fun j hj => hsp j (by simp [hj])) (Or.inr rfl) (by simp at hbuf ⊢; omega)]
      cases st
      simp only [List.length_cons, List.map_cons]
      refine Prod.ext ?_ ?_ <;> simp <;> omega

/-- Running a block of well-sized silence-classified frames from
`VOICE_ACTIVE` with the silence run staying below the end threshold: the
silence counter accumulates and no event is emitted. -/
lemma silence_run_below (ca : AudioConfig) (cv : VADConfig) (inputs : List FrameInput)
    (st : VADState)
    (hsp : ∀ i ∈ inputs, i.is_speech = false ∧ i.frame.length = ca.chunk_size * 2)
    (hst : st.voice_state = .VOICE_ACTIVE)
    (hthr : st.silence_frames + inputs.length < cv.voice_end_threshold) :
    runFrames ca cv st inputs =
      (⟨.VOICE_ACTIVE, (if inputs.length = 0 then st.voice_frames else 0),
        st.silence_frames + inputs.length, st.voice_buffer,
        st.pre_voice_buffer, st.voice_start_time⟩, []) := by
  induction inputs generalizing st with
  | nil => cases st; simp_all [runFrames]
  | cons i rest ih =>
      obtain ⟨hsp1, hlen1⟩ := hsp i (by simp)
      rw [runFrames_cons, hsp1,
        silence_step_below ca cv st i.frame i.now hst hlen1 (by simp at hthr; omega)]
      rw [ih _ (fun j hj => hsp j (by simp [hj])) rfl (by simp at hthr ⊢; omega)]
      cases st
      simp only [List.length_cons]
      refine Prod.ext ?_ ?_ <;> simp <;> omega
/-- `testFrame` is correctly sized for the default config. -/
lemma testFrame_length : testFrame.length = defaultAudioConfig.chunk_size * 2 := by
  simp [testFrame, defaultAudioConfig]

lemma countStart_append (xs ys : List VADEvent) :
    countStart (xs ++ ys) = countStart xs + countStart ys := by
  simp [countStart, List.filter_append]

lemma countData_append (xs ys : List VADEvent) :
    countData (xs ++ ys) = countData xs + countData ys := by
  simp [countData, List.filter_append]

lemma countEnd_append (xs ys : List VADEvent) :
    countEnd (xs ++ ys) = countEnd xs + countEnd ys := by
  simp [countEnd, List.filter_append]

lemma countStart_replicate_data (n : ℕ) (fr : List ℕ) :
    countStart (List.replicate n (VADEvent.onVoiceData fr)) = 0 := by
  simp [countStart, List.filter_replicate]

lemma countData_replicate_data (n : ℕ) (fr : List ℕ) :
    countData (List.replicate n (VADEvent.onVoiceData fr)) = n := by
  simp [countData, List.filter_replicate]

lemma countEnd_replicate_data (n : ℕ) (fr : List ℕ) :
    countEnd (List.replicate n (VADEvent.onVoiceData fr)) = 0 := by
  simp [countEnd, List.filter_replicate]

/-- The C5 scenario under the default configuration: 43 speech-classified
frames (the first three reach the start threshold) followed by 10
silence-classified frames (the end threshold), frame `i` arriving at wall
clock `f i`. -/
def c5Inputs (f : ℕ → ℚ) : List FrameInput :=
  (List.range 43).map (fun i => ⟨testFrame, true, f i⟩) ++
  (List.range 10).map (fun i => ⟨testFrame, false, f (43 + i)⟩)

/-- The C5 scenario split into its five phases: two sub-threshold speech
frames, the session-starting third speech frame, 40 further speech frames,
nine sub-threshold silence frames, and the session-closing tenth one. -/
lemma c5Inputs_chunks (f : ℕ → ℚ) :
    c5Inputs f =
      [⟨testFrame, true, f 0⟩, ⟨testFrame, true, f 1⟩] ++
      ([⟨testFrame, true, f 2⟩] ++
       (((List.range 40).map (fun i => ⟨testFrame, true, f (3 + i)⟩)) ++
        (((List.range 9).map (fun i => ⟨testFrame, false, f (43 + i)⟩)) ++
         [⟨testFrame, false, f 52⟩]))) := by
  have h43 : (List.range 43).map (fun i => (⟨testFrame, true, f i⟩ : FrameInput)) =
      (List.range 3).map (fun i => ⟨testFrame, true, f i⟩) ++
      (List.range 40).map (fun i => ⟨testFrame, true, f (3 + i)⟩) := by
    rw [show (43 : ℕ) = 3 + 40 from rfl, List.range_add, List.map_append, List.map_map]
    rfl
  have h10 : (List.range 10).map (fun i => (⟨testFrame, false, f (43 + i)⟩ : FrameInput)) =
      (List.range 9).map (fun i => ⟨testFrame, false, f (43 + i)⟩) ++
      [⟨testFrame, false, f 52⟩] := by
    rw [show (10 : ℕ) = 9 + 1 from rfl, List.range_succ, List.map_append]
    rfl
  rw [c5Inputs, h43, h10]
  simp [List.range_succ, List.append_assoc]
/-- C5: from the initial state, 3 speech frames (reaching the start
threshold), 40 further speech frames, then 10 silence frames (the end
threshold) — session start recorded at the 3rd frame (time `f 2`), session
closed at the 53rd (time `f 52`) — with measured duration at least
`min_voice_duration`, produce exactly one `on_voice_start`, 43
`on_voice_data` and one `on_voice_end`.  (`0 < f 2` reflects that
`time.time()` wall-clock values are positive.) -/
theorem c5_end_to_end (f : ℕ → ℚ) (h0 : 0 < f 2)
    (hdur : defaultVADConfig.min_voice_duration ≤ f 52 - f 2) :
    countStart (runFrames defaultAudioConfig defaultVADConfig initialVADState (c5Inputs f)).2 = 1 ∧
    countData (runFrames defaultAudioConfig defaultVADConfig initialVADState (c5Inputs f)).2 = 43 ∧
    countEnd (runFrames defaultAudioConfig defaultVADConfig initialVADState (c5Inputs f)).2 = 1 := by
  have hA : runFrames defaultAudioConfig defaultVADConfig initialVADState
      [⟨testFrame, true, f 0⟩, ⟨testFrame, true, f 1⟩] =
      (⟨.SILENCE, 2, 0, [testFrame, testFrame], [], none⟩, []) := by
    rw [runFrames_cons]
    rw [speech_step_silence_below _ _ _ _ _ rfl testFrame_length (by decide) (by decide)]
    rw [runFrames_cons]
    rw [speech_step_silence_below _ _ _ _ _ rfl testFrame_length (by decide) (by decide)]
    simp [runFrames, initialVADState]
  have hB : runFrames defaultAudioConfig defaultVADConfig
      ⟨.SILENCE, 2, 0, [testFrame, testFrame], [], none⟩ [⟨testFrame, true, f 2⟩] =
      (⟨.VOICE_START, 3, 0, [testFrame, testFrame, testFrame], [], some (f 2)⟩,
       [.onVoiceStart, .onVoiceData testFrame, .onVoiceData testFrame,
        .onVoiceData testFrame]) := by
    rw [runFrames_cons]
    rw [speech_step_start _ _ _ _ _ rfl testFrame_length (by decide) (by decide) rfl]
    simp [runFrames, pyTakeLast]
  have hC : runFrames defaultAudioConfig defaultVADConfig
      ⟨.VOICE_START, 3, 0, [testFrame, testFrame, testFrame], [], some (f 2)⟩
      ((List.range 40).map (fun i => ⟨testFrame, true, f (3 + i)⟩)) =
      (⟨.VOICE_ACTIVE, 43, 0, [testFrame, testFrame, testFrame] ++ List.replicate 40 testFrame,
        [], some (f 2)⟩, List.replicate 40 (VADEvent.onVoiceData testFrame)) := by
    rw [speech_run _ _ _ _
      (by
        intro i hi
        simp only [List.mem_map] at hi
        obtain ⟨j, _, rfl⟩ := hi
        exact ⟨rfl, testFrame_length⟩)
      (Or.inl rfl) (by simp)]
    simp only [List.map_map, Function.comp_def]
    simp only [List.map_const', List.length_range, List.length_map]
    norm_num
  have hD : runFrames defaultAudioConfig defaultVADConfig
      ⟨.VOICE_ACTIVE, 43, 0, [testFrame, testFrame, testFrame] ++ List.replicate 40 testFrame,
        [], some (f 2)⟩
      ((List.range 9).map (fun i => ⟨testFrame, false, f (43 + i)⟩)) =
      (⟨.VOICE_ACTIVE, 0, 9, [testFrame, testFrame, testFrame] ++ List.replicate 40 testFrame,
        [], some (f 2)⟩, []) := by
    rw [silence_run_below _ _ _ _
      (by
        intro i hi
        simp only [List.mem_map] at hi
        obtain ⟨j, _, rfl⟩ := hi
        exact ⟨rfl, testFrame_length⟩)
      rfl (by simp [defaultVADConfig])]
    simp only [List.length_map, List.length_range]
    norm_num
  have hE : runFrames defaultAudioConfig defaultVADConfig
      ⟨.VOICE_ACTIVE, 0, 9, [testFrame, testFrame, testFrame] ++ List.replicate 40 testFrame,
        [], some (f 2)⟩ [⟨testFrame, false, f 52⟩] =
      (⟨.SILENCE, 0, 0, [], [], none⟩,
       if f 2 ≠ 0 then
         (if defaultVADConfig.min_voice_duration ≤ f 52 - f 2 then [VADEvent.onVoiceEnd] else [])
       else []) := by
    rw [runFrames_cons]
    rw [silence_step_end _ _ _ _ _ (Or.inr rfl) testFrame_length (by norm_num [defaultVADConfig])]
    simp [runFrames]
  have htotal : (runFrames defaultAudioConfig defaultVADConfig initialVADState (c5Inputs f)).2 =
      [VADEvent.onVoiceStart, .onVoiceData testFrame, .onVoiceData testFrame,
        .onVoiceData testFrame] ++
      (List.replicate 40 (VADEvent.onVoiceData testFrame) ++
       (if f 2 ≠ 0 then
          (if defaultVADConfig.min_voice_duration ≤ f 52 - f 2 then [VADEvent.onVoiceEnd] else [])
        else [])) := by
    rw [c5Inputs_chunks f, runFrames_append, hA]
    rw [runFrames_append, hB]
    rw [runFrames_append, hC]
    rw [runFrames_append, hD]
    rw [hE]
    dsimp only
    simp only [List.nil_append, List.cons_append, List.append_assoc]
  rw [htotal, if_pos (ne_of_gt h0), if_pos hdur]
  refine ⟨?_, ?_, ?_⟩ <;>
    simp [countStart_append, countData_append, countEnd_append,
      countStart_replicate_data, countData_replicate_data, countEnd_replicate_data,
      countStart, countData, countEnd]

/-- Witness for C5 at the concrete clock `f i = i + 1`. -/
theorem c5_end_to_end_witness :
    (0 : ℚ) < (fun i : ℕ => (i : ℚ) + 1) 2 ∧
    defaultVADConfig.min_voice_duration ≤
      (fun i : ℕ => (i : ℚ) + 1) 52 - (fun i : ℕ => (i : ℚ) + 1) 2 ∧
    (countStart (runFrames defaultAudioConfig defaultVADConfig initialVADState
        (c5Inputs (fun i : ℕ => (i : ℚ) + 1))).2 = 1 ∧
     countData (runFrames defaultAudioConfig defaultVADConfig initialVADState
        (c5Inputs (fun i : ℕ => (i : ℚ) + 1))).2 = 43 ∧
     countEnd (runFrames defaultAudioConfig defaultVADConfig initialVADState
        (c5Inputs (fun i : ℕ => (i : ℚ) + 1))).2 = 1) :=
  ⟨by norm_num, by norm_num [defaultVADConfig],
   c5_end_to_end (fun i : ℕ => (i : ℚ) + 1) (by norm_num) (by norm_num [defaultVADConfig])⟩
/-- C6: ending an active session (state `VOICE_START`/`VOICE_ACTIVE`, silence
run reaching the end threshold) emits `on_voice_end` exactly when the measured
duration `now - t` reaches `min_voice_duration` — a too-short session is
discarded silently, with no event — and in both outcomes the session buffer is
cleared, both counters reset to zero, the timestamp dropped, and the state
returns to `SILENCE`.  (`t ≠ 0` reflects Python float truthiness of
`if self.voice_start_time:` for a positive wall-clock start time.) -/
theorem c6_session_end_outcomes (ca : AudioConfig) (cv : VADConfig) (st : VADState)
    (frame : List ℕ) (t now : ℚ)
    (hstate : st.voice_state = .VOICE_START ∨ st.voice_state = .VOICE_ACTIVE)
    (hlen : frame.length = ca.chunk_size * 2)
    (ht : st.voice_start_time = some t) (ht0 : t ≠ 0)
    (hsil : cv.voice_end_threshold ≤ st.silence_frames + 1) :
    (process_audio_frame ca cv st frame false now).events =
      (if cv.min_voice_duration ≤ now - t then [VADEvent.onVoiceEnd] else []) ∧
    (process_audio_frame ca cv st frame false now).state =
      ⟨.SILENCE, 0, 0, [], st.pre_voice_buffer, none⟩ := by
  rw [silence_step_end ca cv st frame now hstate hlen hsil]
  rw [ht]
  simp [ht0]

/-- Witness for C6: active session started at `t = 1`, closed at `now = 2`
under the default configs. -/
theorem c6_session_end_outcomes_witness :
    ((process_audio_frame defaultAudioConfig defaultVADConfig
        ⟨.VOICE_ACTIVE, 7, 9, [testFrame], [], some 1⟩ testFrame false 2).events =
      (if defaultVADConfig.min_voice_duration ≤ (2 : ℚ) - 1 then [VADEvent.onVoiceEnd] else []) ∧
     (process_audio_frame defaultAudioConfig defaultVADConfig
        ⟨.VOICE_ACTIVE, 7, 9, [testFrame], [], some 1⟩ testFrame false 2).state =
      ⟨.SILENCE, 0, 0, [], [], none⟩) :=
  c6_session_end_outcomes defaultAudioConfig defaultVADConfig
    ⟨.VOICE_ACTIVE, 7, 9, [testFrame], [], some 1⟩ testFrame 1 2
    (Or.inr rfl) testFrame_length rfl (by norm_num) (by norm_num [defaultVADConfig])
/-- The sentence terminators of `audio_stream_task`
(`src/src/text/run.py`: `sentence_endings = '.!?'`), in scan order. -/
def sentence_endings : List Char := ['.', '!', '?']

/-- Python `str.find`: lowest index of `c` in `l`, `-1` when absent. -/
def pyFind (l : List Char) (c : Char) : Int :=
  match l with
  | [] => -1
  | x :: xs =>
      if x = c then 0
      else if pyFind xs c = -1 then -1 else pyFind xs c + 1

/-- The whitespace removed by Python `str.strip`. -/
def isPyWs (c : Char) : Bool :=
  c == ' ' || c == '\t' || c == '\n' || c == '\r' || c == '\x0b' || c == '\x0c'

/-- Python `str.strip`: drop leading and trailing whitespace. -/
def pyStrip (l : List Char) : List Char :=
  ((l.dropWhile isPyWs).reverse.dropWhile isPyWs).reverse

/-- One step of the `earliest_pos` scan in `audio_stream_task`:
`pos = sentence_buffer.find(ending); if pos != -1 and pos < earliest_pos:
earliest_pos = pos`. -/
def scanStep (buf : List Char) (earliest : Int) (c : Char) : Int :=
  if pyFind buf c ≠ -1 ∧ pyFind buf c < earliest then pyFind buf c else earliest

/-- The full `earliest_pos` scan: start at `len(sentence_buffer)` and fold the
step over `'.'`, `'!'`, `'?'` in order. -/
def earliestScan (buf : List Char) : Int :=
  sentence_endings.foldl (scanStep buf) (buf.length : Int)

/-- `any(ending in sentence_buffer for ending in sentence_endings)`. -/
def hasTerminator (buf : List Char) : Bool :=
  sentence_endings.any (fun c => buf.contains c)

/-- The scan position reinterpreted: `some pos` when the source's
`if earliest_pos < len(sentence_buffer)` guard passes. -/
def earliestTerminator (buf : List Char) : Option ℕ :=
  if earliestScan buf < (buf.length : Int) then some (earliestScan buf).toNat else none

/-- The sentence-splitting loop of `audio_stream_task`
(`while any(ending in sentence_buffer for ending in sentence_endings)`), with
explicit fuel: each iteration removes at least the split terminator from the
buffer, so `buf.length` fuel (supplied by `processPass`) never runs out —
`processPassGo_congr` below proves the result is fuel-independent.  Returns
the sentences passed to `_text_to_speech_chunk` in order (empty strips are
skipped by `if sentence:`) and the final `sentence_buffer`. -/
def processPassGo (fuel : ℕ) (buf : List Char) : List (List Char) × List Char :=
  match fuel with
  | 0 => ([], buf)
  | fuel + 1 =>
      if hasTerminator buf then
        if earliestScan buf < (buf.length : Int) then
          let n := (earliestScan buf).toNat
          let sentence := pyStrip (buf.take (n + 1))
          let rest := pyStrip (buf.drop (n + 1))
          let r := processPassGo fuel rest
          (if sentence = [] then r.1 else sentence :: r.1, r.2)
        else ([], buf)
      else ([], buf)

/-- One full pass of the sentence-splitting loop. -/
def processPass (buf : List Char) : List (List Char) × List Char :=
  processPassGo buf.length buf

lemma pyFind_ge_neg_one (l : List Char) (c : Char) : -1 ≤ pyFind l c := by
  induction l with
  | nil => simp [pyFind]
  | cons x xs ih =>
      unfold pyFind
      split_ifs <;> omega

lemma scanStep_nonneg (buf : List Char) (e : Int) (c : Char) (he : 0 ≤ e) :
    0 ≤ scanStep buf e c := by
  unfold scanStep
  have := pyFind_ge_neg_one buf c
  split_ifs with h
  · omega
  · exact he

lemma scanStep_le (buf : List Char) (e : Int) (c : Char) : scanStep buf e c ≤ e := by
  unfold scanStep
  split_ifs with h
  · exact le_of_lt h.2
  · exact le_refl e

lemma earliestScan_eq_steps (buf : List Char) :
    earliestScan buf =
      scanStep buf (scanStep buf (scanStep buf (buf.length : Int) '.') '!') '?' := rfl

lemma earliestScan_nonneg (buf : List Char) : 0 ≤ earliestScan buf := by
  rw [earliestScan_eq_steps]
  have h0 : (0 : Int) ≤ (buf.length : Int) := by positivity
  exact scanStep_nonneg _ _ _ (scanStep_nonneg _ _ _ (scanStep_nonneg _ _ _ h0))

lemma pyStrip_length_le (l : List Char) : (pyStrip l).length ≤ l.length := by
  unfold pyStrip
  calc ((l.dropWhile isPyWs).reverse.dropWhile isPyWs).reverse.length
      = ((l.dropWhile isPyWs).reverse.dropWhile isPyWs).length := List.length_reverse _
    _ ≤ (l.dropWhile isPyWs).reverse.length := (List.dropWhile_sublist _).length_le
    _ = (l.dropWhile isPyWs).length := List.length_reverse _
    _ ≤ l.length := (List.dropWhile_sublist _).length_le

/-- The split-off remainder is strictly shorter than the buffer. -/
lemma pyStrip_drop_lt (buf : List Char) (n : ℕ)
    (hlen : 0 < buf.length) :
    (pyStrip (buf.drop (n + 1))).length < buf.length := by
  have h1 := pyStrip_length_le (buf.drop (n + 1))
  have h2 : (buf.drop (n + 1)).length = buf.length - (n + 1) := List.length_drop _ _
  omega

/-- The fuel encoding is exact: any fuel at least `buf.length` computes the
same pass. -/
lemma processPassGo_congr (fuel1 fuel2 : ℕ) (buf : List Char)
    (h1 : buf.length ≤ fuel1) (h2 : buf.length ≤ fuel2) :
    processPassGo fuel1 buf = processPassGo fuel2 buf := by
  induction fuel1 using Nat.strong_induction_on generalizing fuel2 buf with
  | _ fuel1 ih =>
      match fuel1, fuel2 with
      | 0, 0 => rfl
      | 0, f2 + 1 =>
          have hb : buf = [] := List.length_eq_zero.mp (Nat.le_zero.mp h1)
          subst hb
          simp [processPassGo, hasTerminator, sentence_endings]
      | f1 + 1, 0 =>
          have hb : buf = [] := List.length_eq_zero.mp (Nat.le_zero.mp h2)
          subst hb
          simp [processPassGo, hasTerminator, sentence_endings]
      | f1 + 1, f2 + 1 =>
          show processPassGo (f1 + 1) buf = processPassGo (f2 + 1) buf
          unfold processPassGo
          split_ifs with hterm hscan
          · have hpos : 0 < buf.length := by
              have h0 := earliestScan_nonneg buf
              omega
            have hrest := pyStrip_drop_lt buf (earliestScan buf).toNat hpos
            dsimp only
            rw [ih f1 (by omega) f2
              (pyStrip (buf.drop ((earliestScan buf).toNat + 1))) (by omega) (by omega)]
          · rfl
          · rfl
/-- A non-negative `pyFind` result is a genuine first occurrence. -/
lemma pyFind_spec (l : List Char) (c : Char) (n : ℕ) (h : pyFind l c = (n : ℤ)) :
    l.getD n ' ' = c ∧ ∀ j : ℕ, j < n → l.getD j ' ' ≠ c := by
  induction l generalizing n with
  | nil =>
      unfold pyFind at h
      exact absurd h (by omega)
  | cons x xs ih =>
      unfold pyFind at h
      split_ifs at h with hx hr
      · have hn : n = 0 := by omega
        subst hn
        simp [hx]
      · have hge := pyFind_ge_neg_one xs c
        have h0 : 0 ≤ pyFind xs c := by omega
        obtain ⟨m, hm⟩ := Int.eq_ofNat_of_zero_le h0
        have hnm : n = m + 1 := by omega
        subst hnm
        obtain ⟨ihm1, ihm2⟩ := ih m hm
        refine ⟨by simpa using ihm1, ?_⟩
        intro j hj
        cases j with
        | zero => simpa using hx
        | succ k =>
            have hk : k < m := by omega
            simpa using ihm2 k hk

/-- `pyFind = -1` means the character is absent (for non-blank `c`, at every
index, `getD` defaulting to a blank). -/
lemma pyFind_eq_neg_one (l : List Char) (c : Char) (h : pyFind l c = -1)
    (hc : c ≠ ' ') : ∀ j : ℕ, l.getD j ' ' ≠ c := by
  induction l with
  | nil => intro j; simpa using fun hh => hc hh.symm
  | cons x xs ih =>
      unfold pyFind at h
      split_ifs at h with hx hr
      · intro j
        cases j with
        | zero => simpa using hx
        | succ k => simpa using ih hr k
      · have hge := pyFind_ge_neg_one xs c
        omega

lemma scanStep_cases (buf : List Char) (e : Int) (c : Char) :
    scanStep buf e c = e ∨ (pyFind buf c ≠ -1 ∧ scanStep buf e c = pyFind buf c) := by
  unfold scanStep
  split_ifs with h
  · exact Or.inr ⟨h.1, rfl⟩
  · exact Or.inl rfl

lemma scanStep_le_find (buf : List Char) (e : Int) (c : Char) :
    pyFind buf c = -1 ∨ scanStep buf e c ≤ pyFind buf c := by
  unfold scanStep
  split_ifs with h
  · exact Or.inr (le_refl _)
  · by_cases hf : pyFind buf c = -1
    · exact Or.inl hf
    · push_neg at h
      exact Or.inr (h hf)

/-- Positions strictly before a lower bound of `pyFind` do not hold `c`. -/
lemma not_at_lt_of_le_find (buf : List Char) (d : Char) (hd : d ≠ ' ') (x : Int)
    (hx : pyFind buf d = -1 ∨ x ≤ pyFind buf d) (j : ℕ) (hj : (j : Int) < x) :
    buf.getD j ' ' ≠ d := by
  rcases hx with h | h
  · exact pyFind_eq_neg_one buf d h hd j
  · have h0 : 0 ≤ pyFind buf d := by omega
    obtain ⟨m, hm⟩ := Int.eq_ofNat_of_zero_le h0
    exact (pyFind_spec buf d m hm).2 j (by omega)

/-- The scan really computes the earliest terminator position across all three
marks: the reported position holds a terminator, and no earlier position does. -/
theorem earliestTerminator_spec (buf : List Char) (pos : ℕ)
    (h : earliestTerminator buf = some pos) :
    (buf.getD pos ' ' = '.' ∨ buf.getD pos ' ' = '!' ∨ buf.getD pos ' ' = '?') ∧
    ∀ j < pos, buf.getD j ' ' ≠ '.' ∧ buf.getD j ' ' ≠ '!' ∧ buf.getD j ' ' ≠ '?' := by
  unfold earliestTerminator at h
  split_ifs at h with hlt
  have hpos : pos = (earliestScan buf).toNat := by
    simpa using h.symm
  have hnn := earliestScan_nonneg buf
  have hcast : (pos : Int) = earliestScan buf := by omega
  have hsteps := earliestScan_eq_steps buf
  set e1 := scanStep buf (buf.length : Int) '.' with he1
  set e2 := scanStep buf e1 '!' with he2
  have h21 : e2 ≤ e1 := scanStep_le buf e1 '!'
  have h32 : earliestScan buf ≤ e2 := by rw [hsteps]; exact scanStep_le buf e2 '?'
  have h1len : e1 ≤ (buf.length : Int) := scanStep_le buf _ '.'
  constructor
  · -- the scan result is one of the three finds, and pyFind_spec locates it
    have hq := scanStep_cases buf e2 '?'
    rw [← hsteps] at hq
    rcases hq with hq | ⟨hqne, hq⟩
    · have hb := scanStep_cases buf e1 '!'
      rw [← he2, ← hq] at hb
      rcases hb with hb | ⟨hbne, hb⟩
      · have hdot := scanStep_cases buf (buf.length : Int) '.'
        rw [← he1, ← hb] at hdot
        rcases hdot with hdot | ⟨hdne, hdot⟩
        · exfalso; rw [hdot] at hlt; omega
        · obtain ⟨m, hm⟩ := Int.eq_ofNat_of_zero_le
            (show 0 ≤ pyFind buf '.' by rw [← hdot]; omega)
          have : pos = m := by omega
          subst this
          exact Or.inl (pyFind_spec buf '.' _ hm).1
      · obtain ⟨m, hm⟩ := Int.eq_ofNat_of_zero_le
          (show 0 ≤ pyFind buf '!' by rw [← hb]; omega)
        have : pos = m := by omega
        subst this
        exact Or.inr (Or.inl (pyFind_spec buf '!' _ hm).1)
    · obtain ⟨m, hm⟩ := Int.eq_ofNat_of_zero_le
        (show 0 ≤ pyFind buf '?' by rw [← hq]; omega)
      have : pos = m := by omega
      subst this
      exact Or.inr (Or.inr (pyFind_spec buf '?' _ hm).1)
  · intro j hj
    have hjlt : (j : Int) < earliestScan buf := by omega
    have hdotle : pyFind buf '.' = -1 ∨ earliestScan buf ≤ pyFind buf '.' := by
      rcases scanStep_le_find buf (buf.length : Int) '.' with hc | hc
      · exact Or.inl hc
      · exact Or.inr (by rw [← he1] at hc; omega)
    have hbangle : pyFind buf '!' = -1 ∨ earliestScan buf ≤ pyFind buf '!' := by
      rcases scanStep_le_find buf e1 '!' with hc | hc
      · exact Or.inl hc
      · exact Or.inr (by rw [← he2] at hc; omega)
    have hqle : pyFind buf '?' = -1 ∨ earliestScan buf ≤ pyFind buf '?' := by
      rcases scanStep_le_find buf e2 '?' with hc | hc
      · exact Or.inl hc
      · exact Or.inr (by rw [← hsteps] at hc; omega)
    exact ⟨not_at_lt_of_le_find buf '.' (by decide) _ hdotle j hjlt,
           not_at_lt_of_le_find buf '!' (by decide) _ hbangle j hjlt,
           not_at_lt_of_le_find buf '?' (by decide) _ hqle j hjlt⟩
lemma getD_mem_take (l : List Char) (n : ℕ) (c : Char)
    (h : l.getD n ' ' = c) (hc : c ≠ ' ') : c ∈ l.take (n + 1) := by
  induction l generalizing n with
  | nil =>
      rw [List.getD_nil] at h
      exact absurd h.symm hc
  | cons x xs ih =>
      cases n with
      | zero => simp_all
      | succ k =>
          simp only [List.getD_cons_succ] at h
          simpa using Or.inr (ih k h)

lemma mem_dropWhile_of_neg (p : Char → Bool) (c : Char) (l : List Char)
    (hc : p c = false) (h : c ∈ l) : c ∈ l.dropWhile p := by
  induction l with
  | nil => simp at h
  | cons x xs ih =>
      by_cases hx : p x
      · rw [List.dropWhile_cons_of_pos hx]
        rcases List.mem_cons.mp h with rfl | hmem
        · rw [hx] at hc; exact absurd hc (by simp)
        · exact ih hmem
      · rw [List.dropWhile_cons_of_neg hx]
        exact h

lemma mem_pyStrip (c : Char) (l : List Char)
    (hc : isPyWs c = false) (h : c ∈ l) : c ∈ pyStrip l := by
  unfold pyStrip
  rw [List.mem_reverse]
  refine mem_dropWhile_of_neg _ _ _ hc ?_
  rw [List.mem_reverse]
  exact mem_dropWhile_of_neg _ _ _ hc h

/-- If the scan reports position `pos`, the one pass splits off exactly the
stripped prefix up to and including that position as its first synthesized
sentence. -/
lemma processPass_head (buf : List Char) (pos : ℕ)
    (h : earliestTerminator buf = some pos) :
    (processPass buf).1.head? = some (pyStrip (buf.take (pos + 1))) := by
  obtain ⟨hat, _⟩ := earliestTerminator_spec buf pos h
  have hnn := earliestScan_nonneg buf
  unfold earliestTerminator at h
  split_ifs at h with hlt
  have hpos : pos = (earliestScan buf).toNat := by simpa using h.symm
  have hlenpos : 0 < buf.length := by omega
  -- the terminator character sits in the split-off prefix and is not blank,
  -- so the stripped sentence is nonempty
  have hterm_char : ∃ d, buf.getD pos ' ' = d ∧ isPyWs d = false ∧ d ≠ ' ' := by
    rcases hat with h1 | h1 | h1 <;> exact ⟨_, h1, by decide, by decide⟩
  obtain ⟨d, hd, hdws, hdsp⟩ := hterm_char
  have hmem : d ∈ buf.take (pos + 1) := getD_mem_take buf pos d hd hdsp
  have hsent : pyStrip (buf.take (pos + 1)) ≠ [] :=
    List.ne_nil_of_mem (mem_pyStrip d _ hdws hmem)
  -- the loop condition holds: a terminator occurs in the buffer
  have hterm : hasTerminator buf = true := by
    have hmembuf : d ∈ buf := List.mem_of_mem_take hmem
    have hor : ('.' : Char) ∈ buf ∨ ('!' : Char) ∈ buf ∨ ('?' : Char) ∈ buf := by
      rcases hat with h1 | h1 | h1
      · exact Or.inl (by rw [hd] at h1; rwa [h1] at hmembuf)
      · exact Or.inr (Or.inl (by rw [hd] at h1; rwa [h1] at hmembuf))
      · exact Or.inr (Or.inr (by rw [hd] at h1; rwa [h1] at hmembuf))
    simp [hasTerminator, sentence_endings]
    tauto
  -- unfold one iteration of the fuelled loop
  obtain ⟨k, hk⟩ := Nat.exists_eq_succ_of_ne_zero (by omega : buf.length ≠ 0)
  rw [processPass, hk]
  unfold processPassGo
  rw [if_pos hterm, if_pos hlt]
  dsimp only
  rw [← hpos, if_neg hsent]
  rfl

/-- All arguments passed to `_text_to_speech_chunk` for a completed response
text: the sentences split off by the loop, then — if the leftover
`sentence_buffer.strip()` is non-empty — the stripped residual. -/
def synthArgs (text : List Char) : List (List Char) :=
  let r := processPass text
  if pyStrip r.2 = [] then r.1 else r.1 ++ [pyStrip r.2]
/-- C4: whenever the local sentence buffer contains one of `.`, `!`, `?`, the
pass splits at the earliest occurring terminator position across all three
marks (the reported position holds a terminator and no earlier position does)
and synthesizes exactly that stripped sentence first; and on the complete text
`"Hi there. How are you? Good."` exactly three synthesis calls occur, with the
whitespace-trimmed sentences in order. -/
theorem c4_sentence_split (buf : List Char) (pos : ℕ)
    (h : earliestTerminator buf = some pos) :
    (buf.getD pos ' ' = '.' ∨ buf.getD pos ' ' = '!' ∨ buf.getD pos ' ' = '?') ∧
    (∀ j < pos, buf.getD j ' ' ≠ '.' ∧ buf.getD j ' ' ≠ '!' ∧ buf.getD j ' ' ≠ '?') ∧
    (processPass buf).1.head? = some (pyStrip (buf.take (pos + 1))) ∧
    synthArgs "Hi there. How are you? Good.".toList =
      ["Hi there.".toList, "How are you?".toList, "Good.".toList] := by
  obtain ⟨h1, h2⟩ := earliestTerminator_spec buf pos h
  exact ⟨h1, h2, processPass_head buf pos h, by decide⟩

/-- Witness for C4 at the example text, whose earliest terminator is the `.`
at index 8. -/
theorem c4_sentence_split_witness :
    earliestTerminator "Hi there. How are you? Good.".toList = some 8 ∧
    (processPass "Hi there. How are you? Good.".toList).1.head? =
      some (pyStrip ("Hi there. How are you? Good.".toList.take 9)) :=
  ⟨by decide, (c4_sentence_split "Hi there. How are you? Good.".toList 8 (by decide)).2.2.1⟩
/-- Local state of the speech producer in `audio_stream_task`
(`src/src/text/run.py` lines 86-148): the `sentence_buffer` and its
`processed_length` read cursor. -/
structure AudioTaskState where
  sentence_buffer : List Char
  processed_length : ℕ
deriving DecidableEq, Repr

/-- One iteration of the polling loop in `audio_stream_task`.  The shared
object is the `asyncio` future of the token task; `done` is
`response_text_future.done()` at this poll and `fullText` its final value.
While the future is pending the iteration only sleeps and `continue`s —
nothing is extracted and no synthesis happens (there is no access to partial
text through the future).  Once done, the whole remainder past the cursor is
appended, every complete sentence is synthesized, then the stripped residual
(if non-empty), and the loop breaks.  Returns (state, sentences sent to
synthesis this poll, whether the loop breaks). -/
def audioTaskStep (fullText : List Char) (done : Bool) (s : AudioTaskState) :
    AudioTaskState × List (List Char) × Bool :=
  if done then
    let remaining := fullText.drop s.processed_length
    let buf := s.sentence_buffer ++ remaining
    let pl := if remaining = [] then s.processed_length else fullText.length
    let r := processPass buf
    let residual := pyStrip r.2
    if residual ≠ [] then (⟨r.2, pl⟩, r.1 ++ [residual], true)
    else (⟨r.2, pl⟩, r.1, true)
  else (s, [], false)

/-- Iterate `audioTaskStep` with the future pending for the first
`pollsUntilDone` polls and done at the next; record the synthesis calls made
at each poll (the loop breaks at the first done poll). -/
def audioTaskRunGo (s : AudioTaskState) (pollsUntilDone : ℕ) (fullText : List Char) :
    List (List (List Char)) :=
  match pollsUntilDone with
  | 0 => [(audioTaskStep fullText true s).2.1]
  | k + 1 =>
      let r := audioTaskStep fullText false s
      r.2.1 :: audioTaskRunGo r.1 k fullText

/-- A full run of the speech producer from its initial state
(`sentence_buffer = ""`, `processed_length = 0`). -/
def audioTaskRun (pollsUntilDone : ℕ) (fullText : List Char) :
    List (List (List Char)) :=
  audioTaskRunGo ⟨[], 0⟩ pollsUntilDone fullText

/-- C3 (code bug): while the token stream is incomplete, the speech producer
extracts nothing and synthesizes nothing — the pending branch of the loop is
exactly sleep-and-continue, because the producers share an `asyncio` future
(`response_text_future`), not a growing text buffer, and a future exposes no
partial text before completion.  Concretely, for the response `"Hi. Bye."`
with the future pending for five polls, all synthesis (both sentences) happens
at the single final poll: `"Hi."` is not synthesized when its terminator
becomes available, and speech cannot begin before the full answer exists. -/
theorem c3_no_streaming_synthesis :
    (∀ (fullText : List Char) (s : AudioTaskState),
        audioTaskStep fullText false s = (s, [], false)) ∧
    audioTaskRun 5 "Hi. Bye.".toList =
      List.replicate 5 [] ++ [["Hi.".toList, "Bye.".toList]] :=
  ⟨fun _ _ => rfl, by decide⟩

/-- One message of the chat context (`{"role": ..., "content": ...}`). -/
structure Msg where
  role : String
  content : String
deriving DecidableEq, Repr

/-- `ParallelStreamingSpeechConversation._process_user_input`
(`src/src/vad/run.py` lines 284-314), context handling only: append the user
turn to `conversation_context`, build
`messages = [system] + self.conversation_context[-10:]`, and after the
response completes append the assistant turn.  Backend calls are external; the
accumulated response text is the input `respText`.  Returns
(messages sent to the model, context after the turn). -/
def processUserInput (systemPrompt : String) (ctx : List Msg)
    (userText respText : String) : List Msg × List Msg :=
  let ctx1 := ctx ++ [⟨"user", userText⟩]
  let messages := (⟨"system", systemPrompt⟩ : Msg) :: ctx1.drop (ctx1.length - 10)
  let ctx2 := ctx1 ++ [⟨"assistant", respText⟩]
  (messages, ctx2)

/-- C9: each model call sends the system prompt followed by the most recent
ten turns of the context (exactly ten once the history is long enough; a
suffix of the history, so the oldest turns are dropped first), while the
stored context itself grows by two turns per processed input and is never
truncated. -/
theorem c9_context_window (sys : String) (ctx : List Msg) (u r : String) :
    (processUserInput sys ctx u r).1.head? = some (⟨"system", sys⟩ : Msg) ∧
    (processUserInput sys ctx u r).1.tail =
      (ctx ++ [(⟨"user", u⟩ : Msg)]).drop ((ctx.length + 1) - 10) ∧
    (processUserInput sys ctx u r).1.tail.length = min 10 (ctx.length + 1) ∧
    List.IsSuffix (processUserInput sys ctx u r).1.tail (ctx ++ [(⟨"user", u⟩ : Msg)]) ∧
    (processUserInput sys ctx u r).2.length = ctx.length + 2 := by
  refine ⟨rfl, by simp [processUserInput], ?_, ?_, by simp [processUserInput]⟩
  · simp only [processUserInput, List.tail_cons, List.length_drop, List.length_append,
      List.length_singleton]
    omega
  · simpa [processUserInput] using List.drop_suffix _ _
/-- Audio byte buffers as seen by `_resample_audio`: either a well-formed WAV
whose PCM frames decode to signed 16-bit samples, or bytes the `wave` module
fails to parse (decoding raises, caught by the handler). -/
inductive PyBytes where
  | wav (samples : List ℤ)
  | raw (bytes : List ℕ)
deriving DecidableEq, Repr

/-- `np.linspace(0, length, count)`: `count` evenly spaced points from `0` to
`length` inclusive (float arithmetic modelled exactly on `ℚ`). -/
def npLinspace (length : ℕ) (count : ℕ) : List ℚ :=
  match count with
  | 0 => []
  | 1 => [0]
  | c + 2 => (List.range (c + 2)).map (fun i => (i : ℚ) * length / (c + 1))

/-- `np.interp(x, np.arange(len(fp)), fp)` for one query point: clamp to the
end values outside `[0, len-1]`, linear interpolation between the neighbouring
integer sample points inside. -/
def npInterp (fp : List ℤ) (x : ℚ) : ℚ :=
  if fp = [] then 0
  else if x ≤ 0 then ((fp.getD 0 0 : ℤ) : ℚ)
  else if ((fp.length - 1 : ℕ) : ℚ) ≤ x then ((fp.getLastD 0 : ℤ) : ℚ)
  else
    let i := x.floor.toNat
    let y0 := ((fp.getD i 0 : ℤ) : ℚ)
    let y1 := ((fp.getD (i + 1) 0 : ℤ) : ℚ)
    y0 + (y1 - y0) * (x - (i : ℚ))

/-- `.astype(np.int16)`: truncate toward zero, wrap modulo `2^16`. -/
def toInt16 (q : ℚ) : ℤ :=
  let t : ℤ := if q < 0 then -((-q).floor) else q.floor
  ((t + 32768) % 65536) - 32768

/-- `ParallelOpenAIHandler._resample_audio` (`src/src/text/run.py` lines
173-207).  Equal rates return the input at once, before any decoding.
Otherwise the WAV payload is decoded (a parse failure — `raw` input — raises
and the handler returns the original bytes; an empty sample array makes
`np.interp` raise with the same effect), `target_length = int(len * ratio)`,
and the samples are linearly interpolated at the linspace points. -/
def pyResample (b : PyBytes) (source_rate target_rate : ℕ) : PyBytes :=
  if source_rate = target_rate then b
  else
    match b with
    | .raw _ => b
    | .wav samples =>
        if samples = [] then b
        else
          let target_length := samples.length * target_rate / source_rate
          .wav ((npLinspace samples.length target_length).map
            (fun x => toInt16 (npInterp samples x)))

/-- C10: the resampler is the identity whenever source and target rates are
equal (returning before decoding), and when the rates differ but the payload
cannot be decoded, the original input is returned instead of an exception
propagating. -/
theorem c10_resample_identity_and_fallback (b : PyBytes) (r : ℕ)
    (bytes : List ℕ) (s t : ℕ) (hst : s ≠ t) :
    pyResample b r r = b ∧ pyResample (.raw bytes) s t = .raw bytes := by
  constructor
  · unfold pyResample
    simp
  · unfold pyResample
    rw [if_neg hst]

/-- Witness for C10: equal rates on a WAV buffer, and a 24 kHz → 16 kHz call
on undecodable bytes. -/
theorem c10_resample_identity_and_fallback_witness :
    (24000 : ℕ) ≠ 16000 ∧
    (pyResample (.wav [7]) 8000 8000 = .wav [7] ∧
     pyResample (.raw [1, 2]) 24000 16000 = .raw [1, 2]) :=
  ⟨by decide,
   c10_resample_identity_and_fallback (.wav [7]) 8000 [1, 2] 24000 16000 (by decide)⟩
/-- Resampling the 3-sample test WAV from 24 kHz to 16 kHz keeps the two
boundary samples. -/
lemma pyResample_testWav : pyResample (.wav [1, 2, 3]) 24000 16000 = .wav [1, 3] := by
  unfold pyResample
  norm_num
  unfold npLinspace
  norm_num [List.range_succ]
  unfold npInterp
  norm_num [toInt16]
  decide

/-- The fallback apology returned by `text_stream_task` when the
chat-completion stream raises. -/
def fallbackText : String := "I'm sorry, I couldn't process that."

/-- `text_stream_task` (`src/src/text/run.py` lines 60-83): stream the
completion deltas, forwarding each truthy (non-empty) delta to the text
callback and accumulating it; return the accumulated text, or the fallback
apology if the call raises (`fails = true`; `delivered` are the deltas
processed before the failure).  Returns (returned text, text-callback
arguments). -/
def text_stream_task (delivered : List String) (fails : Bool) : String × List String :=
  let emitted := delivered.filter (fun c => c ≠ "")
  (if fails then fallbackText else String.join emitted, emitted)

/-- One sentence through `_text_to_speech_chunk` (which returns `None` on a
TTS failure — modelled by the `tts` oracle) followed by
`_resample_audio(·, 24000, 16000)`. -/
def ttsPipeline (tts : List Char → Option PyBytes) (s : List Char) : Option PyBytes :=
  (tts s).map (fun a => pyResample a 24000 16000)

/-- The synthesis half of `audio_stream_task` over the completed response
text: each split sentence is synthesized and emitted unless its TTS call
returned `None` (`if audio_data:` skips it — one sentence's failure does not
stop the loop), then the stripped residual likewise. -/
def audio_stream_task (fullText : List Char) (tts : List Char → Option PyBytes) :
    List PyBytes :=
  let r := processPass fullText
  let main := r.1.filterMap (ttsPipeline tts)
  let residual := pyStrip r.2
  if residual = [] then main else main ++ (ttsPipeline tts residual).toList

/-- `generate_parallel_response` (`src/src/text/run.py` lines 50-157): launch
both producers, wait for both via
`asyncio.gather(text_task, audio_task, return_exceptions=True)`, and return
the text task's result (the task catches its own failures, so `results[0]` is
never an exception).  The audio producer consumes the text task's returned
text — which is the fallback apology when the stream failed. -/
def generate_parallel_response (delivered : List String) (fails : Bool)
    (tts : List Char → Option PyBytes) : String × List PyBytes :=
  let textResult := text_stream_task delivered fails
  (textResult.1, audio_stream_task textResult.1.toList tts)

/-- A TTS oracle that fails on the sentence `"B."` and returns the 3-sample
test WAV elsewhere. -/
def exampleTts : List Char → Option PyBytes :=
  fun s => if s = "B.".toList then none else some (.wav [1, 2, 3])

/-- C8: the responder waits for both producers and returns the token
producer's accumulated text; a failed chat-completion stream yields the
fallback apology string (not an exception); a text failure does not abort the
audio producer (which then synthesizes the apology — audio is still emitted);
and a TTS failure on one sentence is skipped while the surrounding sentences
are still synthesized in order. -/
theorem c8_parallel_response (delivered : List String)
    (tts : List Char → Option PyBytes) :
    (generate_parallel_response delivered false tts).1 =
      String.join (delivered.filter (fun c => c ≠ "")) ∧
    (generate_parallel_response delivered true tts).1 = fallbackText ∧
    (generate_parallel_response ["x"] true exampleTts).2 = [PyBytes.wav [1, 3]] ∧
    audio_stream_task "A. B. C.".toList exampleTts =
      [PyBytes.wav [1, 3], PyBytes.wav [1, 3]] := by
  have hsplit : processPass "A. B. C.".toList =
      (["A.".toList, "B.".toList, "C.".toList], []) := by decide
  have hfb : processPass fallbackText.toList = ([fallbackText.toList], []) := by decide
  have hA : ttsPipeline exampleTts ['A', '.'] = some (PyBytes.wav [1, 3]) := by
    rw [ttsPipeline, show exampleTts ['A', '.'] = some (PyBytes.wav [1, 2, 3]) from by decide]
    simp [pyResample_testWav]
  have hB : ttsPipeline exampleTts ['B', '.'] = none := by
    rw [ttsPipeline, show exampleTts ['B', '.'] = none from by decide]
    rfl
  have hC : ttsPipeline exampleTts ['C', '.'] = some (PyBytes.wav [1, 3]) := by
    rw [ttsPipeline, show exampleTts ['C', '.'] = some (PyBytes.wav [1, 2, 3]) from by decide]
    simp [pyResample_testWav]
  have hFb : ttsPipeline exampleTts fallbackText.data = some (PyBytes.wav [1, 3]) := by
    rw [ttsPipeline,
      show exampleTts fallbackText.data = some (PyBytes.wav [1, 2, 3]) from by decide]
    simp [pyResample_testWav]
  refine ⟨rfl, rfl, ?_, ?_⟩
  · show audio_stream_task fallbackText.toList exampleTts = [PyBytes.wav [1, 3]]
    rw [audio_stream_task, hfb]
    simp [List.filterMap_cons, hFb, pyStrip]
  · rw [audio_stream_task, hsplit]
    simp [List.filterMap_cons, hA, hB, hC, pyStrip]
